import Mathlib

/-!
# Verification of `prawcore.sessions`

A shallow embedding of `src/prawcore/sessions.py` (the `RetryStrategy` /
`FiniteRetryStrategy` classes and the `Session` request pipeline), together
with theorems settling the specification claims about it.

Modelling conventions:
* Python integers are `Int`; HTTP status codes are `Nat`.
* `random.random()` is made explicit: functions that consume randomness take
  the drawn value `u : ℚ` (with `0 ≤ u < 1` where it matters) as a parameter.
* Exceptions become explicit result constructors; the raised error carries the
  same data the Python constructor receives (the response object).
* The network is made explicit: a run of `_request_with_retries` is driven by
  a list of per-attempt outcomes (one per transport call); the list doubles as
  fuel, so the runner returns `none` only when the supplied list is too short.
-/

namespace Prawcore

/-- A Python value appearing in `params` / `data` dictionaries. -/
inductive PyVal where
  | s (str : String)
  | i (int : Int)
deriving Repr, DecidableEq

/-! ## `FiniteRetryStrategy` (sessions.py lines 35-82) -/

/-- State of `FiniteRetryStrategy`: the `_retries` attribute (a Python int). -/
structure FiniteRetryStrategy where
  _retries : Int
deriving Repr, DecidableEq

/-- `_consume_retry`: `return type(self)(self._retries - 1)`. -/
def FiniteRetryStrategy._consume_retry (s : FiniteRetryStrategy) :
    FiniteRetryStrategy :=
  ⟨s._retries - 1⟩

/-- `_should_retry_on_failure`: `return self._retries > 0`. -/
def FiniteRetryStrategy._should_retry_on_failure (s : FiniteRetryStrategy) :
    Bool :=
  s._retries > 0

/-- `_sleep_seconds`: `if self._retries < 3: base = 0 if self._retries == 2
else 2; return base + 2 * random.random()` else `None`.  `u` is the value
drawn by `random.random()`. -/
def FiniteRetryStrategy._sleep_seconds (s : FiniteRetryStrategy) (u : ℚ) :
    Option ℚ :=
  if s._retries < 3 then
    some ((if s._retries = 2 then 0 else 2) + 2 * u)
  else
    none

/-- `RetryStrategy.sleep`: sleeps for `_sleep_seconds` (when not `None`), then
consumes a retry and returns the new state together with the new state's
`_should_retry_on_failure()`.  The returned triple records the slept duration
(the side effect) and the Python return value `(new_state, should_retry)`. -/
def FiniteRetryStrategy.sleep (s : FiniteRetryStrategy) (u : ℚ) :
    Option ℚ × FiniteRetryStrategy × Bool :=
  let sleep_seconds := s._sleep_seconds u
  let new_state := s._consume_retry
  (sleep_seconds, new_state, new_state._should_retry_on_failure)

/-- The sleep-duration table as the spec claim words it (for comparison with
the code's `_sleep_seconds`): no sleep for `r >= 3`, `2 + U(0,2)` at `r = 2`,
`0 + U(0,2)` at `r = 1` (and below). -/
def claimedSleepSeconds (r : Int) (u : ℚ) : Option ℚ :=
  if r ≥ 3 then none
  else if r = 2 then some (2 + 2 * u)
  else some (0 + 2 * u)

/-! ## Session constants (sessions.py lines 89-116) -/

/-- The kind (Python class) of the original cause of a transport-level
`RequestException`. -/
inductive ExcKind where
  | chunkedEncodingError
  | connectionError
  | readTimeout
  | otherTransport
deriving Repr, DecidableEq

/-- `RETRY_EXCEPTIONS = (ChunkedEncodingError, ConnectionError, ReadTimeout)`:
membership test used by the `isinstance` check in `_make_request`. -/
def RETRY_EXCEPTIONS (k : ExcKind) : Bool :=
  match k with
  | .chunkedEncodingError => true
  | .connectionError => true
  | .readTimeout => true
  | .otherTransport => false

/-- `RETRY_STATUSES = {520, 522, 502, 504, 500, 503}` (the named `codes`
entries resolved to their numeric values). -/
def RETRY_STATUSES : List Nat :=
  [520, 522, 502, 504, 500, 503]

/-- The exception classes appearing as values of `STATUS_EXCEPTIONS` (from
`prawcore.exceptions` / `prawcore.util`).  `authorizationError` stands for the
class computed by `authorization_error_class` for the session's credential. -/
inductive ErrorKind where
  | ServerError
  | BadRequest
  | Conflict
  | Redirect
  | authorizationError
  | SpecialError
  | NotFound
  | TooLarge
  | UnavailableForLegalReasons
  | BadJSON
deriving Repr, DecidableEq

/-- `STATUS_EXCEPTIONS`: the dict of sessions.py lines 98-115, with the named
`codes` entries resolved (`bad_gateway` 502, `bad_request` 400, `conflict`
409, `found` 302, `forbidden` 403, `gateway_timeout` 504,
`internal_server_error` 500, `media_type` 415, `not_found` 404,
`request_entity_too_large` 413, `service_unavailable` 503, `unauthorized`
401, `unavailable_for_legal_reasons` 451) plus the CloudFlare codes. -/
def STATUS_EXCEPTIONS (status : Nat) : Option ErrorKind :=
  if status = 502 then some .ServerError
  else if status = 400 then some .BadRequest
  else if status = 409 then some .Conflict
  else if status = 302 then some .Redirect
  else if status = 403 then some .authorizationError
  else if status = 504 then some .ServerError
  else if status = 500 then some .ServerError
  else if status = 415 then some .SpecialError
  else if status = 404 then some .NotFound
  else if status = 413 then some .TooLarge
  else if status = 503 then some .ServerError
  else if status = 401 then some .authorizationError
  else if status = 451 then some .UnavailableForLegalReasons
  else if status = 520 then some .ServerError
  else if status = 522 then some .ServerError
  else none

/-- `SUCCESS_STATUSES = {codes["created"], codes["ok"]} = {201, 200}`. -/
def SUCCESS_STATUSES : List Nat :=
  [201, 200]

/-! ## The request pipeline (sessions.py lines 146-253) -/

/-- The data of a `requests` response the pipeline inspects: `status_code`,
`headers.get("content-length")`, and the result of `response.json()`
(`body_json = none` models a body on which `.json()` raises `ValueError`).
`ident` distinguishes response objects so that "carries the raw response" is
about the very object of the attempt. -/
structure Response where
  status : Nat
  contentLength : Option String
  body_json : Option String
  ident : Nat
deriving Repr, DecidableEq

/-- The outcome of one transport call made inside `_make_request`: either a
response, or a `RequestException` (with identity `ident`, to track that a
propagated exception is the very one raised) wrapping an original cause of
kind `cause`. -/
inductive Outcome where
  | response (resp : Response)
  | exception (ident : Nat) (cause : ExcKind)
deriving Repr, DecidableEq

/-- What a call of `_request_with_retries` can produce. -/
inductive ReqResult where
  /-- `return response.json()` succeeded with value `v`, or `return ""` (the
  declared content-length was `"0"`). -/
  | success (v : String)
  /-- `return` (status 204, Python `None`). -/
  | noneVal
  /-- `raise K(response)`: a classified error of kind `k` carrying the raw
  response (`STATUS_EXCEPTIONS` raises and `BadJSON`). -/
  | raised (k : ErrorKind) (resp : Response)
  /-- The original `RequestException` propagated unchanged by the bare
  `raise` in `_make_request`. -/
  | propagated (ident : Nat) (cause : ExcKind)
  /-- The `assert response.status_code in self.SUCCESS_STATUSES` failed. -/
  | assertionFailure (status : Nat)
  /-- Evaluating `response.status_code` on `None` (unreachable in the code). -/
  | noneCrash
deriving Repr, DecidableEq

/-- The state of the session's authorizer the pipeline touches: whether
`hasattr(authorizer, "refresh")` and the current access token
(`_clear_access_token` sets it to `none`). -/
structure Authorizer where
  hasRefresh : Bool
  accessToken : Option String
deriving Repr, DecidableEq

/-- `_make_request` (lines 175-202): returns `(response, None)` on a
response; on a `RequestException`, re-raises it unchanged (`Except.error`,
keeping its identity and cause) unless `should_retry_on_failure` holds and the
original cause is an instance of `RETRY_EXCEPTIONS`, in which case it returns
`(None, exception.original_exception)`. -/
def _make_request (should_retry_on_failure : Bool) (out : Outcome) :
    Except (Nat × ExcKind) (Option Response × Option ExcKind) :=
  match out with
  | .response resp => .ok (some resp, none)
  | .exception ident cause =>
    if !should_retry_on_failure || !RETRY_EXCEPTIONS cause then
      .error (ident, cause)
    else
      .ok (none, some cause)

/-- What one iteration of `_request_with_retries` after the `sleep()` call
decides: recurse via `_do_retry`, or terminate with a result/raise. -/
inductive StepResult where
  | retry (saved : Option ExcKind)
  | done (r : ReqResult)
deriving Repr, DecidableEq

/-- One attempt of `_request_with_retries` (lines 211-253), after
`retry_strategy_state.sleep()` has produced `should_retry_on_failure`:
calls `_make_request`, handles the 401 branch (clear token; `do_retry` iff the
authorizer has `refresh`), the retry condition, `STATUS_EXCEPTIONS`, 204, the
success-set assertion, the content-length check and JSON decoding.  Returns
the decision together with the (possibly token-cleared) authorizer. -/
def attemptStep (auth : Authorizer) (should_retry_on_failure : Bool)
    (out : Outcome) : StepResult × Authorizer :=
  match _make_request should_retry_on_failure out with
  | .error e => (.done (.propagated e.1 e.2), auth)
  | .ok (response, saved_exception) =>
    let is401 : Bool :=
      match response with
      | some resp => resp.status = 401
      | none => false
    let auth2 := if is401 then { auth with accessToken := none } else auth
    let do_retry := is401 && auth.hasRefresh
    let statusRetryable : Bool :=
      match response with
      | some resp => RETRY_STATUSES.contains resp.status
      | none => false
    if should_retry_on_failure && (do_retry || response.isNone || statusRetryable) then
      (.retry saved_exception, auth2)
    else
      match response with
      | none => (.done .noneCrash, auth2)
      | some resp =>
        match STATUS_EXCEPTIONS resp.status with
        | some k => (.done (.raised k resp), auth2)
        | none =>
          if resp.status = 204 then
            (.done .noneVal, auth2)
          else if !SUCCESS_STATUSES.contains resp.status then
            (.done (.assertionFailure resp.status), auth2)
          else if resp.contentLength = some "0" then
            (.done (.success ""), auth2)
          else
            match resp.body_json with
            | some v => (.done (.success v), auth2)
            | none => (.done (.raised .BadJSON resp), auth2)

/-- `_request_with_retries` (lines 204-253) driven by the list of per-attempt
transport outcomes.  Each iteration consumes the retry state exactly as
`sleep()` does (`new_state = _consume_retry`, `should_retry_on_failure =
new_state._should_retry_on_failure()`), performs `attemptStep`, and either
terminates or recurses through `_do_retry` with the new state.  Returns the
final result, the final authorizer, and the number of attempts performed;
`none` only if `outcomes` ran out before the pipeline terminated. -/
def _request_with_retries (auth : Authorizer)
    (retry_strategy_state : FiniteRetryStrategy) :
    List Outcome → Option (ReqResult × Authorizer × Nat)
  | [] => none
  | out :: rest =>
    let new_state := retry_strategy_state._consume_retry
    let should_retry_on_failure := new_state._should_retry_on_failure
    match attemptStep auth should_retry_on_failure out with
    | (.done r, auth2) => some (r, auth2, 1)
    | (.retry _, auth2) =>
      match _request_with_retries auth2 new_state rest with
      | some (r, authF, k) => some (r, authF, k + 1)
      | none => none

/-- An outcome the pipeline retries while eligibility lasts: a transport
exception whose cause is in `RETRY_EXCEPTIONS`, or a response whose status is
in `RETRY_STATUSES`. -/
def retryableOutcome : Outcome → Bool
  | .exception _ cause => RETRY_EXCEPTIONS cause
  | .response resp => RETRY_STATUSES.contains resp.status

/-- The classified error the pipeline raises when `out` is the final,
non-retried attempt's outcome: the original exception propagated unchanged for
a transport exception, the `STATUS_EXCEPTIONS` error for a response whose
status is in the table. -/
def finalError : Outcome → ReqResult
  | .exception ident cause => .propagated ident cause
  | .response resp =>
    match STATUS_EXCEPTIONS resp.status with
    | some k => .raised k resp
    | none => .assertionFailure resp.status

/-- Whether a step decision is a retry (the `_do_retry` recursion). -/
def isRetryStep : StepResult → Bool
  | .retry _ => true
  | .done _ => false

/-- The statuses with a defined classification in the pipeline: the
`STATUS_EXCEPTIONS` keys, 204, and the success set. -/
def knownStatuses : List Nat :=
  [200, 201, 204, 302, 400, 401, 403, 404, 409, 413, 415, 451,
   500, 502, 503, 504, 520, 522]

/-! ## `Session.request` parameter preparation (sessions.py lines 292-297)

Python dicts are mutable objects, and the claims about this code are about
mutation (`deepcopy` before adding marker entries) as well as about the
prepared values, so dicts live in an explicit heap: a list of dictionaries
indexed by reference. -/

/-- A Python dict, as its insertion-ordered association list (keys unique). -/
abbrev Dict := List (String × PyVal)

/-- The heap of dict objects; a reference is an index into the list. -/
abbrev Heap := List Dict

/-- Read the dict an (assumed valid) reference points to. -/
def heapGet (h : Heap) (r : Nat) : Option Dict :=
  h[r]?

/-- `deepcopy`: allocate a fresh dict object with value `d`. -/
def heapAlloc (h : Heap) (d : Dict) : Heap × Nat :=
  (h ++ [d], List.length h)

/-- Python dict assignment `d[k] = v`: overwrite in place if `k` is present,
else append, preserving insertion order. -/
def dictInsert (k : String) (v : PyVal) : Dict → Dict
  | [] => [(k, v)]
  | (k2, v2) :: rest =>
    if k2 = k then (k, v) :: rest else (k2, v2) :: dictInsert k v rest

/-- `d[k] = v` on the dict object at reference `r`. -/
def heapSet (h : Heap) (r : Nat) (k : String) (v : PyVal) : Heap :=
  List.set h r (dictInsert k v ((heapGet h r).getD []))

/-- Python string comparison: lexicographic on Unicode code points.  (Python's
`sorted` compares the `(key, value)` tuples, which for a dict's unique keys is
decided by the keys alone.) -/
def strLE : List Char → List Char → Bool
  | [], _ => true
  | _ :: _, [] => false
  | a :: as, b :: bs =>
    if a.toNat < b.toNat then true
    else if b.toNat < a.toNat then false
    else strLE as bs

/-- Ordering used by Python's `sorted(data.items())`: by field name. -/
def keyLE (a b : String × PyVal) : Prop :=
  strLE a.1.data b.1.data = true

instance : DecidableRel keyLE :=
  fun a b => inferInstanceAs (Decidable (strLE a.1.data b.1.data = true))

/-- The body of `Session.request` preceding `_request_with_retries`:
`params = deepcopy(params) or {}`, `params["raw_json"] = 1`, and for a dict
body `data = deepcopy(data)`, `data["api_type"] = "json"`,
`data = sorted(data.items())`.  Takes references to the caller's dicts
(`none` for an absent argument) and returns the new heap, the value of the
pipeline's `params` dict, and the prepared `data` list (`none` when no form
body was given). -/
def request_prepare (h : Heap) (paramsRef : Option Nat) (dataRef : Option Nat) :
    Heap × Dict × Option (List (String × PyVal)) :=
  let paramsVal : Dict :=
    match paramsRef with
    | some r => (heapGet h r).getD []
    | none => []
  let p1 := heapAlloc h paramsVal
  let h2 := heapSet p1.1 p1.2 "raw_json" (.i 1)
  match dataRef with
  | none => (h2, (heapGet h2 p1.2).getD [], none)
  | some dr =>
    let dataVal : Dict := (heapGet h2 dr).getD []
    let p2 := heapAlloc h2 dataVal
    let h3 := heapSet p2.1 p2.2 "api_type" (.s "json")
    (h3, (heapGet h3 p1.2).getD [],
      some (List.insertionSort keyLE ((heapGet h3 p2.2).getD [])))

/-! ## Helper lemmas -/

/-- Unfolding `sleep` into its three components. -/
theorem sleep_eq (s : FiniteRetryStrategy) (u : ℚ) :
    s.sleep u =
      (s._sleep_seconds u, s._consume_retry,
        (s._consume_retry)._should_retry_on_failure) := rfl

/-- Membership in `RETRY_STATUSES`, spelled out. -/
theorem mem_RETRY_STATUSES {s : Nat} (h : s ∈ RETRY_STATUSES) :
    s = 520 ∨ s = 522 ∨ s = 502 ∨ s = 504 ∨ s = 500 ∨ s = 503 := by
  simpa [RETRY_STATUSES] using h

/-- Every retryable status is classified as `ServerError`. -/
theorem statusExceptions_of_retryStatus {s : Nat} (h : s ∈ RETRY_STATUSES) :
    STATUS_EXCEPTIONS s = some .ServerError := by
  rcases mem_RETRY_STATUSES h with rfl | rfl | rfl | rfl | rfl | rfl <;> rfl

/-- No retryable status is 401. -/
theorem retryStatus_ne_401 {s : Nat} (h : s ∈ RETRY_STATUSES) : s ≠ 401 := by
  rcases mem_RETRY_STATUSES h with rfl | rfl | rfl | rfl | rfl | rfl <;> decide

/-- With `should_retry_on_failure` false, an attempt always terminates the
loop (the retry branch is guarded by the conjunction). -/
theorem attemptStep_false_done (auth : Authorizer) (out : Outcome) :
    ∃ r auth2, attemptStep auth false out = (.done r, auth2) := by
  cases out with
  | exception i c =>
    by_cases hc : RETRY_EXCEPTIONS c <;> simp [attemptStep, _make_request, hc]
  | response resp =>
    simp only [attemptStep, _make_request, Bool.false_and, if_false]
    repeat' split
    all_goals try exact ⟨_, _, rfl⟩
    all_goals simp_all

/-- A retry decision can only happen with `should_retry_on_failure` true. -/
theorem attemptStep_retry_imp_sr {auth auth2 : Authorizer}
    {saved : Option ExcKind} {sr : Bool} {out : Outcome}
    (h : attemptStep auth sr out = (.retry saved, auth2)) : sr = true := by
  cases sr with
  | true => rfl
  | false =>
    obtain ⟨r, a2, h2⟩ := attemptStep_false_done auth out
    rw [h2] at h
    simp at h

/-- A retryable outcome is retried (and the authorizer untouched) whenever
`should_retry_on_failure` holds. -/
theorem attemptStep_retryable_true (auth : Authorizer) (out : Outcome)
    (h : retryableOutcome out = true) :
    ∃ saved, attemptStep auth true out = (.retry saved, auth) := by
  cases out with
  | exception i c =>
    simp [retryableOutcome] at h
    exact ⟨some c, by simp [attemptStep, _make_request, h]⟩
  | response resp =>
    simp [retryableOutcome] at h
    have h401 : resp.status ≠ 401 := retryStatus_ne_401 h
    exact ⟨none, by simp [attemptStep, _make_request, h, h401]⟩

/-- A retryable outcome met with `should_retry_on_failure` false terminates
with its classified error (and leaves the authorizer untouched). -/
theorem attemptStep_retryable_false (auth : Authorizer) (out : Outcome)
    (h : retryableOutcome out = true) :
    attemptStep auth false out = (.done (finalError out), auth) := by
  cases out with
  | exception i c => simp [attemptStep, _make_request, finalError]
  | response resp =>
    simp [retryableOutcome] at h
    have h401 : resp.status ≠ 401 := retryStatus_ne_401 h
    have hse := statusExceptions_of_retryStatus h
    simp [attemptStep, _make_request, finalError, h401, hse]

/-- Unfolding of the runner on a nonempty outcome list. -/
theorem run_cons (auth : Authorizer) (state : FiniteRetryStrategy)
    (out : Outcome) (rest : List Outcome) :
    _request_with_retries auth state (out :: rest) =
      (match attemptStep auth (state._consume_retry)._should_retry_on_failure out with
      | (.done r, auth2) => some (r, auth2, 1)
      | (.retry _, auth2) =>
        match _request_with_retries auth2 state._consume_retry rest with
        | some (r, authF, k) => some (r, authF, k + 1)
        | none => none) := rfl

/-- All-retryable-failure runs: with `front.length + 1` retries configured and
every outcome retryable, the pipeline performs exactly `front.length + 1`
attempts and ends with the final outcome's classified error. -/
theorem run_all_failing (front : List Outcome) (lastO : Outcome)
    (rest : List Outcome) (auth : Authorizer)
    (hfront : ∀ o ∈ front, retryableOutcome o = true)
    (hlast : retryableOutcome lastO = true) :
    _request_with_retries auth ⟨(front.length : Int) + 1⟩ (front ++ lastO :: rest)
      = some (finalError lastO, auth, front.length + 1) := by
  induction front generalizing auth with
  | nil =>
    have hsr : ((⟨((List.length ([] : List Outcome) : Int)) + 1⟩ :
        FiniteRetryStrategy)._consume_retry)._should_retry_on_failure = false := by
      simp [FiniteRetryStrategy._consume_retry,
        FiniteRetryStrategy._should_retry_on_failure]
    rw [List.nil_append, run_cons, hsr,
      attemptStep_retryable_false auth lastO hlast]
    simp
  | cons f fs ih =>
    have hsr : ((⟨((List.length (f :: fs) : Int)) + 1⟩ :
        FiniteRetryStrategy)._consume_retry)._should_retry_on_failure = true := by
      simp [FiniteRetryStrategy._consume_retry,
        FiniteRetryStrategy._should_retry_on_failure]
    obtain ⟨saved, hstep⟩ :=
      attemptStep_retryable_true auth f (hfront f (by simp))
    have hconsume : ((⟨((List.length (f :: fs) : Int)) + 1⟩ :
        FiniteRetryStrategy)._consume_retry) = ⟨(List.length fs : Int) + 1⟩ := by
      simp [FiniteRetryStrategy._consume_retry]
    rw [List.cons_append, run_cons, hsr, hstep, hconsume]
    simp [ih auth (fun o ho => hfront o (by simp [ho]))]

/-- The number of attempts a terminating run performs never exceeds the
configured retry count (so the final `_retries` value is never negative). -/
theorem run_attempts_le (outs : List Outcome) :
    ∀ (auth : Authorizer) (s : FiniteRetryStrategy) (r : ReqResult)
      (a : Authorizer) (k : Nat), 1 ≤ s._retries →
      _request_with_retries auth s outs = some (r, a, k) →
      (k : Int) ≤ s._retries := by
  induction outs with
  | nil =>
    intro auth s r a k h1 h2
    simp [_request_with_retries] at h2
  | cons out rest ih =>
    intro auth s r a k h1 h2
    rw [run_cons] at h2
    cases hstep : attemptStep auth (s._consume_retry)._should_retry_on_failure out with
    | mk step auth2 =>
      rw [hstep] at h2
      cases step with
      | done r2 =>
        simp at h2
        omega
      | retry saved =>
        have hsr := attemptStep_retry_imp_sr hstep
        have hgt : 1 ≤ s._retries - 1 := by
          simp [FiniteRetryStrategy._consume_retry,
            FiniteRetryStrategy._should_retry_on_failure] at hsr
          omega
        simp only at h2
        cases hrec : _request_with_retries auth2 s._consume_retry rest with
        | none =>
          rw [hrec] at h2
          simp at h2
        | some t =>
          obtain ⟨r2, a2, k2⟩ := t
          rw [hrec] at h2
          simp at h2
          have hbound := ih auth2 s._consume_retry r2 a2 k2 hgt hrec
          simp [FiniteRetryStrategy._consume_retry] at hbound
          omega

theorem attemptStep_table (auth : Authorizer) (sr : Bool) (resp : Response)
    (k : ErrorKind) (hse : STATUS_EXCEPTIONS resp.status = some k) :
    ∃ auth2, attemptStep auth sr (.response resp) = (.retry none, auth2)
      ∨ attemptStep auth sr (.response resp) = (.done (.raised k resp), auth2) := by
  simp only [attemptStep, _make_request]
  split
  · exact ⟨_, Or.inl rfl⟩
  · rw [hse]
    exact ⟨_, Or.inr rfl⟩


theorem attemptStep_204 (auth : Authorizer) (sr : Bool) (resp : Response)
    (h : resp.status = 204) :
    attemptStep auth sr (.response resp) = (.done .noneVal, auth) := by
  simp [attemptStep, _make_request, h, STATUS_EXCEPTIONS, RETRY_STATUSES]


theorem attemptStep_success_empty (auth : Authorizer) (sr : Bool) (resp : Response)
    (h : resp.status ∈ SUCCESS_STATUSES) (hcl : resp.contentLength = some "0") :
    attemptStep auth sr (.response resp) = (.done (.success ""), auth) := by
  rcases (by simpa [SUCCESS_STATUSES] using h : resp.status = 201 ∨ resp.status = 200) with h2 | h2 <;>
    simp [attemptStep, _make_request, h2, hcl, STATUS_EXCEPTIONS, RETRY_STATUSES, SUCCESS_STATUSES]


theorem attemptStep_success_json (auth : Authorizer) (sr : Bool) (resp : Response)
    (v : String) (h : resp.status ∈ SUCCESS_STATUSES)
    (hcl : resp.contentLength ≠ some "0") (hb : resp.body_json = some v) :
    attemptStep auth sr (.response resp) = (.done (.success v), auth) := by
  rcases (by simpa [SUCCESS_STATUSES] using h : resp.status = 201 ∨ resp.status = 200) with h2 | h2 <;>
    simp [attemptStep, _make_request, h2, hcl, hb, STATUS_EXCEPTIONS, RETRY_STATUSES, SUCCESS_STATUSES]


theorem attemptStep_success_badjson (auth : Authorizer) (sr : Bool) (resp : Response)
    (h : resp.status ∈ SUCCESS_STATUSES)
    (hcl : resp.contentLength ≠ some "0") (hb : resp.body_json = none) :
    attemptStep auth sr (.response resp) = (.done (.raised .BadJSON resp), auth) := by
  rcases (by simpa [SUCCESS_STATUSES] using h : resp.status = 201 ∨ resp.status = 200) with h2 | h2 <;>
    simp [attemptStep, _make_request, h2, hcl, hb, STATUS_EXCEPTIONS, RETRY_STATUSES, SUCCESS_STATUSES]

theorem attemptStep_assertion_inv {auth : Authorizer} {sr : Bool}
    {resp : Response} {st : Nat}
    (h : (attemptStep auth sr (.response resp)).1 = .done (.assertionFailure st)) :
    st = resp.status ∧ STATUS_EXCEPTIONS resp.status = none
      ∧ resp.status ≠ 204 ∧ resp.status ∉ SUCCESS_STATUSES := by
  simp only [attemptStep, _make_request] at h
  repeat' split at h
  all_goals simp_all


theorem statusExceptions_ne_of_table {s : Nat} (hse : STATUS_EXCEPTIONS s = none) :
    s ∉ RETRY_STATUSES ∧ s ≠ 401 := by
  constructor
  · intro hmem
    rw [statusExceptions_of_retryStatus hmem] at hse
    simp at hse
  · intro h401
    rw [h401] at hse
    simp [STATUS_EXCEPTIONS] at hse


theorem attemptStep_not_retryable_done (auth : Authorizer) (sr : Bool)
    (resp : Response) (h401 : resp.status ≠ 401)
    (hnrs : resp.status ∉ RETRY_STATUSES) :
    ∃ r, attemptStep auth sr (.response resp) = (.done r, auth) := by
  simp [attemptStep, _make_request, h401, hnrs]
  repeat' split
  all_goals exact ⟨_, rfl⟩



/-- Heap values at live references are unaffected by a deepcopy-allocate
followed by a marker insertion on the fresh reference. -/
theorem heapGet_prep_step {h : Heap} {d : Dict} {k : String} {v : PyVal}
    {r : Nat} (hr : r < h.length) :
    heapGet (heapSet (heapAlloc h d).1 (heapAlloc h d).2 k v) r = heapGet h r := by
  unfold heapAlloc heapSet heapGet
  rw [List.getElem?_set_ne (by omega : h.length ≠ r)]
  exact List.getElem?_append_left hr

/-- Reading back the freshly allocated dict after the marker insertion. -/
theorem heapGet_prep_new {h : Heap} {d : Dict} {k : String} {v : PyVal} :
    heapGet (heapSet (heapAlloc h d).1 (heapAlloc h d).2 k v) (heapAlloc h d).2
      = some (dictInsert k v d) := by
  unfold heapAlloc heapSet heapGet
  rw [List.getElem?_concat_length]
  show (List.set (h ++ [d]) h.length (dictInsert k v d))[h.length]? = _
  exact List.getElem?_set_eq_of_lt _ (by simp)

/-- Allocate-then-set grows the heap by exactly one object. -/
theorem heapSet_alloc_length (h : Heap) (d : Dict) (k : String) (v : PyVal) :
    (heapSet (heapAlloc h d).1 (heapAlloc h d).2 k v).length = h.length + 1 := by
  simp [heapAlloc, heapSet]

/-- The assigned entry is present after `d[k] = v`. -/
theorem dictInsert_self_mem (k : String) (v : PyVal) (d : Dict) :
    (k, v) ∈ dictInsert k v d := by
  induction d with
  | nil => simp [dictInsert]
  | cons p rest ih =>
    obtain ⟨k2, v2⟩ := p
    by_cases hk : k2 = k <;> simp [dictInsert, hk, ih]

/-- `d[k] = v` on a dict without key `k` appends the entry. -/
theorem dictInsert_not_mem {k : String} (v : PyVal) {d : Dict}
    (h : k ∉ d.map Prod.fst) : dictInsert k v d = d ++ [(k, v)] := by
  induction d with
  | nil => rfl
  | cons p rest ih =>
    obtain ⟨k2, v2⟩ := p
    simp only [List.map_cons, List.mem_cons, not_or] at h
    have hne : k2 ≠ k := fun e => h.1 e.symm
    simp [dictInsert, hne, ih h.2]

/-- `strLE` is total. -/
theorem strLE_total : ∀ (x y : List Char),
    strLE x y = true ∨ strLE y x = true := by
  intro x
  induction x with
  | nil => intro y; left; rfl
  | cons a as ih =>
    intro y
    cases y with
    | nil => right; rfl
    | cons b bs =>
      by_cases h1 : a.toNat < b.toNat
      · left; simp [strLE, h1]
      · by_cases h2 : b.toNat < a.toNat
        · right; simp [strLE, h2]
        · rcases ih bs with h | h
          · left; simp [strLE, h1, h2, h]
          · right; simp [strLE, h1, h2, h]

/-- `strLE` is transitive. -/
theorem strLE_trans : ∀ (x y z : List Char), strLE x y = true →
    strLE y z = true → strLE x z = true := by
  intro x
  induction x with
  | nil => intro y z h1 h2; rfl
  | cons a as ih =>
    intro y z hxy hyz
    cases y with
    | nil => simp [strLE] at hxy
    | cons b bs =>
      cases z with
      | nil => simp [strLE] at hyz
      | cons c cs =>
        by_cases hab : a.toNat < b.toNat
        · by_cases hbc : b.toNat < c.toNat
          · simp [strLE, show a.toNat < c.toNat by omega]
          · by_cases hcb : c.toNat < b.toNat
            · simp [strLE, hbc, hcb] at hyz
            · simp [strLE, show a.toNat < c.toNat by omega]
        · by_cases hba : b.toNat < a.toNat
          · simp [strLE, hab, hba] at hxy
          · by_cases hbc : b.toNat < c.toNat
            · simp [strLE, show a.toNat < c.toNat by omega]
            · by_cases hcb : c.toNat < b.toNat
              · simp [strLE, hbc, hcb] at hyz
              · have hxy2 : strLE as bs = true := by
                  simpa [strLE, hab, hba] using hxy
                have hyz2 : strLE bs cs = true := by
                  simpa [strLE, hbc, hcb] using hyz
                simp [strLE, show ¬ a.toNat < c.toNat by omega,
                  show ¬ c.toNat < a.toNat by omega, ih bs cs hxy2 hyz2]

instance : IsTotal (String × PyVal) keyLE :=
  ⟨fun a b => strLE_total a.1.data b.1.data⟩

instance : IsTrans (String × PyVal) keyLE :=
  ⟨fun a b c h1 h2 => strLE_trans a.1.data b.1.data c.1.data h1 h2⟩

/-! ## Claims -/

/-- C1, counterexample: the claim puts the sleep durations the wrong way
round.  At retries-remaining `r = 2` (with the jitter draw `u = 0`) the claim
predicts a sleep of `2` seconds, but `_sleep_seconds` computes
`base = 0` when `_retries == 2`, so the code sleeps `0` seconds. -/
theorem claim_C1_counterexample :
    claimedSleepSeconds 2 0 = some 2
    ∧ (FiniteRetryStrategy.sleep ⟨2⟩ 0).1 = some 0
    ∧ claimedSleepSeconds 2 0 ≠ (FiniteRetryStrategy.sleep ⟨2⟩ 0).1 := by
  refine ⟨by norm_num [claimedSleepSeconds], ?_, ?_⟩ <;>
    norm_num [claimedSleepSeconds, FiniteRetryStrategy.sleep,
      FiniteRetryStrategy._sleep_seconds]

/-- C1 (amended): for a call of `sleep()` with retries-remaining `r` before
the call and jitter draw `u`: if `r ≥ 3` no sleep occurs; if `r = 2` the
sleep duration is `0 + 2u` (i.e. `0 + U(0,2)`); if `r ≤ 1` it is `2 + 2u`
(i.e. `2 + U(0,2)`); and in every case the returned new state has
`retriesRemaining = r - 1` and `shouldRetryOnFailure = (r - 1 > 0)`. -/
theorem claim_C1 (r : Int) (u : ℚ) :
    (3 ≤ r → (FiniteRetryStrategy.sleep ⟨r⟩ u).1 = none)
    ∧ (r = 2 → (FiniteRetryStrategy.sleep ⟨r⟩ u).1 = some (0 + 2 * u))
    ∧ (r ≤ 1 → (FiniteRetryStrategy.sleep ⟨r⟩ u).1 = some (2 + 2 * u))
    ∧ ((FiniteRetryStrategy.sleep ⟨r⟩ u).2.1._retries = r - 1)
    ∧ ((FiniteRetryStrategy.sleep ⟨r⟩ u).2.2 = decide (r - 1 > 0)) := by
  refine ⟨?_, ?_, ?_, rfl, rfl⟩
  · intro h
    simp [FiniteRetryStrategy.sleep, FiniteRetryStrategy._sleep_seconds]
    omega
  · intro h
    subst h
    norm_num [FiniteRetryStrategy.sleep, FiniteRetryStrategy._sleep_seconds]
  · intro h
    have h3 : r < 3 := by omega
    have h2 : r ≠ 2 := by omega
    simp [FiniteRetryStrategy.sleep, FiniteRetryStrategy._sleep_seconds, h3, h2]

/-- C1, witness: the amended sleep table evaluated at `r = 3, 2, 1` with the
jitter draw `u = 1/2`. -/
theorem claim_C1_witness :
    (FiniteRetryStrategy.sleep ⟨3⟩ (1/2)).1 = none
    ∧ (FiniteRetryStrategy.sleep ⟨2⟩ (1/2)).1 = some (0 + 2 * (1/2))
    ∧ (FiniteRetryStrategy.sleep ⟨1⟩ (1/2)).1 = some (2 + 2 * (1/2)) :=
  ⟨(claim_C1 3 (1/2)).1 (by norm_num),
   (claim_C1 2 (1/2)).2.1 rfl,
   (claim_C1 1 (1/2)).2.2.1 (by norm_num)⟩

/-- C2: for every initial retry count `n = front.length + 1 ≥ 1`, if every
attempt yields a retryable outcome (a retryable transport exception or a
status in `RETRY_STATUSES`), the pipeline performs exactly `n` attempts and
then produces the classified error of the final attempt's outcome
(`finalError`), regardless of how many further outcomes would be available;
in particular the recursion never exceeds `n` attempts. -/
theorem claim_C2 (front : List Outcome) (lastO : Outcome)
    (rest : List Outcome) (auth : Authorizer)
    (hfront : ∀ o ∈ front, retryableOutcome o = true)
    (hlast : retryableOutcome lastO = true) :
    _request_with_retries auth ⟨(front.length : Int) + 1⟩ (front ++ lastO :: rest)
      = some (finalError lastO, auth, front.length + 1) :=
  run_all_failing front lastO rest auth hfront hlast

/-- C2, witness: two retries configured, a 503 response then a connection
error; the pipeline makes exactly 2 attempts and propagates the final
connection error. -/
theorem claim_C2_witness :
    _request_with_retries ⟨false, none⟩ ⟨2⟩
      [Outcome.response ⟨503, none, none, 0⟩,
        Outcome.exception 1 .connectionError]
      = some (.propagated 1 .connectionError, ⟨false, none⟩, 2) := by
  have h := claim_C2 [Outcome.response ⟨503, none, none, 0⟩]
    (Outcome.exception 1 .connectionError) [] ⟨false, none⟩
    (by decide) (by decide)
  simpa [finalError] using h

/-- C9: `RetryStrategy` consumption is pure and immutable (the embedding is a
function of an explicit state value, never mutated): `sleep()` on equal
states with the random generator drawing equal values yields identical
results; each consumption returns a fresh state whose `_retries` is exactly
one less than before; and along any terminating pipeline run started with at
least one retry the number of consumptions `k` never drives `_retries`
negative (`0 ≤ s._retries - k`). -/
theorem claim_C9 :
    (∀ (s1 s2 : FiniteRetryStrategy) (u1 u2 : ℚ), s1 = s2 → u1 = u2 →
      s1.sleep u1 = s2.sleep u2)
    ∧ (∀ (s : FiniteRetryStrategy) (u : ℚ),
      ((s.sleep u).2.1)._retries = s._retries - 1)
    ∧ (∀ (auth : Authorizer) (s : FiniteRetryStrategy) (outs : List Outcome)
        (r : ReqResult) (a : Authorizer) (k : Nat), 1 ≤ s._retries →
        _request_with_retries auth s outs = some (r, a, k) →
        0 ≤ s._retries - (k : Int)) :=
  ⟨fun _ _ _ _ h1 h2 => by rw [h1, h2],
   fun _ _ => rfl,
   fun auth s outs r a k h1 h2 => by
     have := run_attempts_le outs auth s r a k h1 h2
     omega⟩

/-- C9, witness: determinism at `r = 2`, `u = 1/2`, and the non-negativity
bound applied to a concrete one-attempt run with three retries configured. -/
theorem claim_C9_witness :
    (⟨2⟩ : FiniteRetryStrategy).sleep (1/2)
        = (⟨2⟩ : FiniteRetryStrategy).sleep (1/2)
    ∧ 0 ≤ (⟨3⟩ : FiniteRetryStrategy)._retries - ((1 : Nat) : Int) :=
  ⟨claim_C9.1 ⟨2⟩ ⟨2⟩ (1/2) (1/2) rfl rfl,
   claim_C9.2.2 ⟨false, none⟩ ⟨3⟩ [.response ⟨200, none, some "v", 0⟩]
     (.success "v") ⟨false, none⟩ 1 (by norm_num) (by decide)⟩

/-- C3: for every attempt whose response has status 401, the pipeline clears
the credential's access token unconditionally; it retries exactly when the
credential supports refresh AND `shouldRetryOnFailure` is true; if either
condition fails it raises the authorization-error class for status 401
(carrying the response) rather than looping. -/
theorem claim_C3 (auth : Authorizer) (sr : Bool) (resp : Response)
    (h401 : resp.status = 401) :
    ((attemptStep auth sr (.response resp)).2.accessToken = none)
    ∧ (isRetryStep (attemptStep auth sr (.response resp)).1 = (auth.hasRefresh && sr))
    ∧ (auth.hasRefresh = false ∨ sr = false →
        attemptStep auth sr (.response resp)
          = (.done (.raised .authorizationError resp),
             { auth with accessToken := none })) := by
  cases sr <;> cases hr : auth.hasRefresh <;>
    simp [attemptStep, _make_request, isRetryStep, hr, h401,
      STATUS_EXCEPTIONS, RETRY_STATUSES]

/-- C3, witness: a 401 response against an authorizer without refresh, with
retries remaining: the token is cleared and the authorization error
raised. -/
theorem claim_C3_witness :
    ((attemptStep ⟨false, some "tok"⟩ true
        (.response ⟨401, none, none, 4⟩)).2.accessToken = none)
    ∧ (attemptStep ⟨false, some "tok"⟩ true (.response ⟨401, none, none, 4⟩)
        = (.done (.raised .authorizationError ⟨401, none, none, 4⟩),
           { hasRefresh := false, accessToken := none })) :=
  ⟨(claim_C3 ⟨false, some "tok"⟩ true ⟨401, none, none, 4⟩ rfl).1,
   (claim_C3 ⟨false, some "tok"⟩ true ⟨401, none, none, 4⟩ rfl).2.2
     (Or.inl rfl)⟩

/-- C4, counterexample: 401 is in the fatal classification table, yet a 401
response against a refresh-capable authorizer with retries remaining does not
cause the table's error to be raised — the attempt retries instead. -/
theorem claim_C4_counterexample :
    (STATUS_EXCEPTIONS 401).isSome = true
    ∧ attemptStep ⟨true, some "tok"⟩ true (.response ⟨401, none, none, 0⟩)
        = (.retry none, ⟨true, none⟩) := by
  decide

/-- C4 (amended): the retryable status set is exactly
`{500, 502, 503, 504, 520, 522}`; the fatal classification table's statuses
are exactly 302, 400, 401, 403, 404, 409, 413, 415, 451 and the server-error
codes; and every response whose status is in the table and that reaches
classification without being retried (server-error codes once retries are
exhausted; 401 also when refresh is unavailable or retries are exhausted)
causes the corresponding classified error to be raised, carrying the raw
response object. -/
theorem claim_C4 :
    (∀ s : Nat, s ∈ RETRY_STATUSES ↔
      (s = 500 ∨ s = 502 ∨ s = 503 ∨ s = 504 ∨ s = 520 ∨ s = 522))
    ∧ (∀ s : Nat, (STATUS_EXCEPTIONS s).isSome = true ↔
      (s = 302 ∨ s = 400 ∨ s = 401 ∨ s = 403 ∨ s = 404 ∨ s = 409 ∨ s = 413
        ∨ s = 415 ∨ s = 451 ∨ s = 500 ∨ s = 502 ∨ s = 503 ∨ s = 504
        ∨ s = 520 ∨ s = 522))
    ∧ (∀ (auth : Authorizer) (sr : Bool) (resp : Response) (k : ErrorKind),
        STATUS_EXCEPTIONS resp.status = some k →
        isRetryStep (attemptStep auth sr (.response resp)).1 = false →
        ∃ auth2, attemptStep auth sr (.response resp)
          = (.done (.raised k resp), auth2)) := by
  refine ⟨?_, ?_, ?_⟩
  · intro s
    simp [RETRY_STATUSES]
    tauto
  · intro s
    constructor
    · intro hs
      by_contra hno
      push_neg at hno
      obtain ⟨h1, h2, h3, h4, h5, h6, h7, h8, h9, h10, h11, h12, h13, h14, h15⟩ := hno
      simp [STATUS_EXCEPTIONS, h1, h2, h3, h4, h5, h6, h7, h8, h9, h10,
        h11, h12, h13, h14, h15] at hs
    · rintro (rfl | rfl | rfl | rfl | rfl | rfl | rfl | rfl | rfl | rfl |
        rfl | rfl | rfl | rfl | rfl) <;> rfl
  · intro auth sr resp k hse hnr
    obtain ⟨auth2, hcase⟩ := attemptStep_table auth sr resp k hse
    rcases hcase with hcase | hcase
    · rw [hcase] at hnr
      simp [isRetryStep] at hnr
    · exact ⟨auth2, hcase⟩

/-- C4, witness: a 404 response with retries exhausted raises `NotFound`
carrying the response. -/
theorem claim_C4_witness :
    (attemptStep ⟨false, none⟩ false (.response ⟨404, none, none, 9⟩)).1
      = .done (.raised .NotFound ⟨404, none, none, 9⟩) := by
  obtain ⟨auth2, h⟩ := claim_C4.2.2 ⟨false, none⟩ false ⟨404, none, none, 9⟩
    .NotFound rfl (by decide)
  rw [h]


theorem claim_C5 (auth : Authorizer) (sr : Bool) (resp : Response) :
    (resp.status = 204 →
      attemptStep auth sr (.response resp) = (.done .noneVal, auth))
    ∧ (resp.status ∈ SUCCESS_STATUSES → resp.contentLength = some "0" →
      attemptStep auth sr (.response resp) = (.done (.success ""), auth))
    ∧ (resp.status ∈ SUCCESS_STATUSES → resp.contentLength ≠ some "0" →
      resp.body_json = none →
      attemptStep auth sr (.response resp)
        = (.done (.raised .BadJSON resp), auth))
    ∧ (∀ v, resp.status ∈ SUCCESS_STATUSES → resp.contentLength ≠ some "0" →
      resp.body_json = some v →
      attemptStep auth sr (.response resp) = (.done (.success v), auth)) :=
  ⟨attemptStep_204 auth sr resp,
   attemptStep_success_empty auth sr resp,
   attemptStep_success_badjson auth sr resp,
   fun v h hcl hb => attemptStep_success_json auth sr resp v h hcl hb⟩

/-- C5, witness: the four success-arm behaviours at concrete responses
(204; 200 with declared content-length "0" and an undecodable body; 200 with
an undecodable body; 201 with a decodable body). -/
theorem claim_C5_witness :
    attemptStep ⟨false, none⟩ true (.response ⟨204, none, none, 0⟩)
        = (.done .noneVal, ⟨false, none⟩)
    ∧ attemptStep ⟨false, none⟩ true (.response ⟨200, some "0", none, 1⟩)
        = (.done (.success ""), ⟨false, none⟩)
    ∧ attemptStep ⟨false, none⟩ true (.response ⟨200, none, none, 2⟩)
        = (.done (.raised .BadJSON ⟨200, none, none, 2⟩), ⟨false, none⟩)
    ∧ attemptStep ⟨false, none⟩ true (.response ⟨201, none, some "ok", 3⟩)
        = (.done (.success "ok"), ⟨false, none⟩) :=
  ⟨(claim_C5 ⟨false, none⟩ true ⟨204, none, none, 0⟩).1 rfl,
   (claim_C5 ⟨false, none⟩ true ⟨200, some "0", none, 1⟩).2.1 (by decide) rfl,
   (claim_C5 ⟨false, none⟩ true ⟨200, none, none, 2⟩).2.2.1 (by decide)
     (by decide) rfl,
   (claim_C5 ⟨false, none⟩ true ⟨201, none, some "ok", 3⟩).2.2.2 "ok"
     (by decide) (by decide) rfl⟩

/-- C7: every response that is not retried, not in the fatal classification
table and not 204 reaches the assertion: the attempt never retries, and it
ends in an assertion (protocol-violation) failure exactly when the status is
outside the known success set `{200, 201}`; under the precondition that the
status lies in the known status universe the assertion branch is
unreachable. -/
theorem claim_C7 (auth : Authorizer) (sr : Bool) (resp : Response) :
    (STATUS_EXCEPTIONS resp.status = none → resp.status ≠ 204 →
      (isRetryStep (attemptStep auth sr (.response resp)).1 = false)
      ∧ ((attemptStep auth sr (.response resp)).1
            = .done (.assertionFailure resp.status)
          ↔ resp.status ∉ SUCCESS_STATUSES))
    ∧ (resp.status ∈ knownStatuses →
      (attemptStep auth sr (.response resp)).1
        ≠ .done (.assertionFailure resp.status)) := by
  constructor
  · intro hse hne204
    obtain ⟨hnrs, h401⟩ := statusExceptions_ne_of_table hse
    have hrs : RETRY_STATUSES.contains resp.status = false := by
      simpa using hnrs
    constructor
    · obtain ⟨r, hst⟩ := attemptStep_not_retryable_done auth sr resp h401 hnrs
      rw [hst]
      rfl
    · constructor
      · intro h
        exact (attemptStep_assertion_inv h).2.2.2
      · intro hnsucc
        have hns : SUCCESS_STATUSES.contains resp.status = false := by
          simpa using hnsucc
        simp [attemptStep, _make_request, h401, hrs, hse, hne204, hns,
          hnrs, hnsucc]
  · intro hknown h
    obtain ⟨_, hse, h204, hsucc⟩ := attemptStep_assertion_inv h
    have : resp.status ∈ SUCCESS_STATUSES ∨ resp.status = 204
        ∨ (STATUS_EXCEPTIONS resp.status).isSome = true := by
      rcases (by simpa [knownStatuses] using hknown :
        resp.status = 200 ∨ resp.status = 201 ∨ resp.status = 204 ∨
        resp.status = 302 ∨ resp.status = 400 ∨ resp.status = 401 ∨
        resp.status = 403 ∨ resp.status = 404 ∨ resp.status = 409 ∨
        resp.status = 413 ∨ resp.status = 415 ∨ resp.status = 451 ∨
        resp.status = 500 ∨ resp.status = 502 ∨ resp.status = 503 ∨
        resp.status = 504 ∨ resp.status = 520 ∨ resp.status = 522) with
        h2 | h2 | h2 | h2 | h2 | h2 | h2 | h2 | h2 | h2 | h2 | h2 | h2 | h2 | h2 | h2 | h2 | h2 <;>
        rw [h2] <;> simp [SUCCESS_STATUSES, STATUS_EXCEPTIONS]
    rcases this with h2 | h2 | h2
    · exact hsucc h2
    · exact h204 h2
    · rw [hse] at h2
      simp at h2


/-- C7, witness: an unknown status 999 trips the assertion (never retried),
while the known status 200 cannot. -/
theorem claim_C7_witness :
    (isRetryStep (attemptStep ⟨false, none⟩ true (.response ⟨999, none, none, 5⟩)).1 = false)
    ∧ ((attemptStep ⟨false, none⟩ true (.response ⟨999, none, none, 5⟩)).1
        = .done (.assertionFailure 999))
    ∧ ((attemptStep ⟨false, none⟩ true (.response ⟨200, none, some "v", 6⟩)).1
        ≠ .done (.assertionFailure 200)) := by
  have h1 := (claim_C7 ⟨false, none⟩ true ⟨999, none, none, 5⟩).1 rfl (by decide)
  have h2 := (claim_C7 ⟨false, none⟩ true ⟨200, none, some "v", 6⟩).2 (by decide)
  exact ⟨h1.1, h1.2.mpr (by decide), h2⟩


/-- C8: for every attempt raising a transport exception, if the exception's
original cause is not in the retryable transport set or
`shouldRetryOnFailure` is false, `_make_request` re-raises the original
exception unchanged (same identity and cause, no wrapping) and the retry
loop does not catch it: the pipeline's run ends after that single attempt
with exactly that exception. -/
theorem claim_C8 (auth : Authorizer) (state : FiniteRetryStrategy)
    (ident : Nat) (cause : ExcKind) (rest : List Outcome)
    (h : RETRY_EXCEPTIONS cause = false ∨ state._retries ≤ 1) :
    _make_request (state._consume_retry)._should_retry_on_failure
        (.exception ident cause) = .error (ident, cause)
    ∧ _request_with_retries auth state (.exception ident cause :: rest)
      = some (.propagated ident cause, auth, 1) := by
  have hmk : _make_request (state._consume_retry)._should_retry_on_failure
      (.exception ident cause) = .error (ident, cause) := by
    rcases h with hc | hr
    · simp [_make_request, hc]
    · have hsr : (state._consume_retry)._should_retry_on_failure = false := by
        simp [FiniteRetryStrategy._consume_retry,
          FiniteRetryStrategy._should_retry_on_failure]
        omega
      simp [_make_request, hsr]
  refine ⟨hmk, ?_⟩
  rw [run_cons]
  simp [attemptStep, hmk]


/-- C8, witness: a non-retryable transport cause with plenty of retries
remaining propagates unchanged after one attempt. -/
theorem claim_C8_witness :
    _make_request ((⟨5⟩ : FiniteRetryStrategy)._consume_retry)._should_retry_on_failure
        (.exception 7 .otherTransport) = .error (7, .otherTransport)
    ∧ _request_with_retries ⟨false, none⟩ ⟨5⟩ [.exception 7 .otherTransport]
      = some (.propagated 7 .otherTransport, ⟨false, none⟩, 1) :=
  claim_C8 ⟨false, none⟩ ⟨5⟩ 7 .otherTransport [] (Or.inl rfl)

/-- C6: for every request whose body is a form-field mapping, the transmitted
body is the caller's fields plus the fixed structured-error marker field
(`api_type = json`), emitted as a sequence sorted by field name (a permutation
of the caller's fields plus the marker, pairwise ordered by `keyLE`); and
every request's query parameters carry the fixed marker parameter
(`raw_json = 1`). -/
theorem claim_C6 (h : Heap) (prOpt : Option Nat) (dr : Nat)
    (hdr : dr < h.length)
    (hnoapi : "api_type" ∉ ((heapGet h dr).getD []).map Prod.fst) :
    (∀ drOpt, ("raw_json", PyVal.i 1) ∈ (request_prepare h prOpt drOpt).2.1)
    ∧ (∃ L, (request_prepare h prOpt (some dr)).2.2 = some L
        ∧ L.Perm (((heapGet h dr).getD []) ++ [("api_type", PyVal.s "json")])
        ∧ List.Sorted keyLE L) := by
  constructor
  · intro drOpt
    cases drOpt with
    | none =>
      simp only [request_prepare]
      rw [heapGet_prep_new]
      exact dictInsert_self_mem _ _ _
    | some dr2 =>
      simp only [request_prepare]
      rw [heapGet_prep_step (by simp [heapAlloc, heapSet]),
        heapGet_prep_new]
      exact dictInsert_self_mem _ _ _
  · simp only [request_prepare]
    rw [heapGet_prep_step hdr, heapGet_prep_new]
    refine ⟨_, rfl, ?_, ?_⟩
    · simp only [Option.getD_some]
      rw [dictInsert_not_mem _ hnoapi]
      exact List.perm_insertionSort keyLE _
    · exact List.sorted_insertionSort keyLE _

/-- C6, witness: the spec's test scenario — form fields `{b: 2, a: 1}` are
transmitted as `[a, 1], [api_type, json], [b, 2]` and the query parameters
carry `raw_json = 1`. -/
theorem claim_C6_witness :
    ("raw_json", PyVal.i 1)
        ∈ (request_prepare [[("b", PyVal.i 2), ("a", PyVal.i 1)]]
            none (some 0)).2.1
    ∧ (request_prepare [[("b", PyVal.i 2), ("a", PyVal.i 1)]]
          none (some 0)).2.2
        = some [("a", PyVal.i 1), ("api_type", PyVal.s "json"),
            ("b", PyVal.i 2)] :=
  ⟨(claim_C6 [[("b", PyVal.i 2), ("a", PyVal.i 1)]] none 0 (by decide)
      (by decide)).1 (some 0),
   by decide⟩

/-- C10: the caller-supplied `params` and `data` dicts are unchanged after
`Session.request`'s preparation: both are deep-copied before the `raw_json`
and `api_type` marker entries are added, so the heap objects the caller's
references point to are identical before and after (with or without a form
body). -/
theorem claim_C10 (h : Heap) (pr dr : Nat) (hpr : pr < h.length)
    (hdr : dr < h.length) :
    (heapGet (request_prepare h (some pr) (some dr)).1 pr = heapGet h pr
      ∧ heapGet (request_prepare h (some pr) (some dr)).1 dr = heapGet h dr)
    ∧ heapGet (request_prepare h (some pr) none).1 pr = heapGet h pr := by
  have hlen2 : ∀ (d : Dict),
      (heapSet (heapAlloc h d).1 (heapAlloc h d).2 "raw_json" (.i 1)).length
        = h.length + 1 := fun d => heapSet_alloc_length h d _ _
  refine ⟨⟨?_, ?_⟩, ?_⟩
  · simp only [request_prepare]
    rw [heapGet_prep_step (by rw [hlen2]; omega)]
    exact heapGet_prep_step (by omega)
  · simp only [request_prepare]
    rw [heapGet_prep_step (by rw [hlen2]; omega)]
    exact heapGet_prep_step (by omega)
  · simp only [request_prepare]
    exact heapGet_prep_step (by omega)

/-- C10, witness: concrete caller dicts at references 0 and 1 are untouched
by the preparation. -/
theorem claim_C10_witness :
    (heapGet (request_prepare [[("x", PyVal.s "y")], [("b", PyVal.i 2)]]
          (some 0) (some 1)).1 0
        = heapGet [[("x", PyVal.s "y")], [("b", PyVal.i 2)]] 0
      ∧ heapGet (request_prepare [[("x", PyVal.s "y")], [("b", PyVal.i 2)]]
          (some 0) (some 1)).1 1
        = heapGet [[("x", PyVal.s "y")], [("b", PyVal.i 2)]] 1)
    ∧ heapGet (request_prepare [[("x", PyVal.s "y")], [("b", PyVal.i 2)]]
        (some 0) none).1 0
      = heapGet [[("x", PyVal.s "y")], [("b", PyVal.i 2)]] 0 :=
  claim_C10 [[("x", PyVal.s "y")], [("b", PyVal.i 2)]] 0 1
    (by decide) (by decide)

end Prawcore
